import Mathlib

/-!
# A shallow embedding of the `chip8` CHIP-8 emulator core (`src/lib.rs`)

The CPU state is embedded as a structure whose fixed-size byte arrays
(`memory : [u8; 4096]`, `v_reg : [u8; 16]`, `display : [u8; 6144]`,
`stack : [usize; 16]`, `keypad : [u8; 16]`) become total functions
`Nat → Nat` together with explicit bounds checks at every access where the
Rust index expression is not trivially in range.  Machine integers become
`Nat` with explicit `% 256` (resp. masks) exactly where the Rust code wraps.
Rust panics (out-of-bounds indexing, `usize` subtraction overflow, explicit
`panic!`) become `Except Err` errors, so every fallible operation returns
`Except Err CPU`.

`v_reg` is indexed in the source only by nibbles extracted from the opcode
(`x()`, `y()`, `0x0`, `0xF`, and loop counters bounded by `x()`), all of
which are `< 16` by construction, so its accesses are embedded as plain
function application/update; all other arrays are accessed through checked
reads and writes.
-/

/-- Errors: each constructor corresponds to a way the Rust code can panic. -/
inductive Err where
  /-- An array index was out of bounds (Rust indexing panic). -/
  | indexOutOfBounds : Err
  /-- Source `usize` subtraction underflow (`self.sp -= 1` with `sp = 0`; a panic in
  debug builds, and in release builds the wrapped value immediately causes an
  out-of-bounds indexing panic on `stack`). -/
  | subOverflow : Err
  /-- Source `panic!("unknown opcode {}", self.opcode)` in `decode_opcode`;
  carries the offending opcode. -/
  | unknownOpcode (op : Nat) : Err
  /-- Source `panic!("red value wasn't 255 or 0: {}", red)` in `get_pixel`. -/
  | badRed (v : Nat) : Err
  /-- Source `panic!("bad pixel state {}", state)` in `set_pixel`. -/
  | badPixelState (v : Nat) : Err
deriving Repr, DecidableEq

deriving instance DecidableEq for Except

/-- Source `const PROGRAM_ROM_START: usize = 0x200;` -/
def PROGRAM_ROM_START : Nat := 0x200
/-- Source `const FONTSET_START: usize = 0x000;` -/
def FONTSET_START : Nat := 0x000
/-- Source `pub const DISPLAY_WIDTH: usize = 64;` -/
def DISPLAY_WIDTH : Nat := 64
/-- Source `pub const DISPLAY_HEIGHT: usize = 32;` -/
def DISPLAY_HEIGHT : Nat := 32
/-- Source `pub const DISPLAY_SIZE: usize = DISPLAY_HEIGHT * DISPLAY_WIDTH * 3;` -/
def DISPLAY_SIZE : Nat := DISPLAY_HEIGHT * DISPLAY_WIDTH * 3

/-- Source `const CHIP8_FONTSET: [u8; 80]`. -/
def CHIP8_FONTSET : List Nat :=
  [0xF0, 0x90, 0x90, 0x90, 0xF0,
   0x20, 0x60, 0x20, 0x20, 0x70,
   0xF0, 0x10, 0xF0, 0x80, 0xF0,
   0xF0, 0x10, 0xF0, 0x10, 0xF0,
   0x90, 0x90, 0xF0, 0x10, 0x10,
   0xF0, 0x80, 0xF0, 0x10, 0xF0,
   0xF0, 0x80, 0xF0, 0x90, 0xF0,
   0xF0, 0x10, 0x20, 0x40, 0x40,
   0xF0, 0x90, 0xF0, 0x90, 0xF0,
   0xF0, 0x90, 0xF0, 0x10, 0xF0,
   0xF0, 0x90, 0xF0, 0x90, 0x90,
   0xE0, 0x90, 0xE0, 0x90, 0xE0,
   0xF0, 0x80, 0x80, 0x80, 0xF0,
   0xE0, 0x90, 0x90, 0x90, 0xE0,
   0xF0, 0x80, 0xF0, 0x80, 0xF0,
   0xF0, 0x80, 0xF0, 0x80, 0x80]

/-- Pointwise update of a function modelling an in-place array store
`a[i] = v`. -/
def upd (f : Nat → Nat) (i v : Nat) : Nat → Nat :=
  fun j => if j = i then v else f j

/-- Opcode field `x`: `((self & 0x0F00) >> 8) as usize`. -/
def Opcode.x (op : Nat) : Nat := (op &&& 0x0F00) >>> 8
/-- Opcode field `y`: `((self & 0x00F0) >> 4) as usize`. -/
def Opcode.y (op : Nat) : Nat := (op &&& 0x00F0) >>> 4
/-- Opcode field `n`: `(self & 0x000F) as usize`. -/
def Opcode.n (op : Nat) : Nat := op &&& 0x000F
/-- Opcode field `kk`: `(self & 0x00FF) as u8`. -/
def Opcode.kk (op : Nat) : Nat := op &&& 0x00FF
/-- Opcode field `nnn`: `(self & 0x0FFF) as usize`. -/
def Opcode.nnn (op : Nat) : Nat := op &&& 0x0FFF

/-- Source `pub struct CPU` from `src/lib.rs`.  Byte arrays become `Nat → Nat`
(values are bytes, `< 256`, maintained by the operations themselves as in
the Rust code); `stack` holds `usize` return addresses. -/
@[ext] structure CPU where
  opcode : Nat
  memory : Nat → Nat
  v_reg : Nat → Nat
  i_addr : Nat
  pc : Nat
  display : Nat → Nat
  stack : Nat → Nat
  sp : Nat
  delay_timer : Nat
  sound_timer : Nat
  keypad : Nat → Nat

namespace CPU

/-- Source `load_fontset`: `for (i, byte) in CHIP8_FONTSET.iter().enumerate()
{ self.memory[FONTSET_START + i] = *byte; }`. -/
def load_fontset (mem : Nat → Nat) : Nat → Nat :=
  (List.range CHIP8_FONTSET.length).foldl
    (fun m i => upd m (FONTSET_START + i) (CHIP8_FONTSET.getD i 0)) mem

/-- Source `CPU::new()`: zero-initialized state, `pc = 0x200`, fontset loaded. -/
def new : CPU :=
  { opcode := 0
    memory := load_fontset (fun _ => 0)
    v_reg := fun _ => 0
    i_addr := 0
    pc := PROGRAM_ROM_START
    display := fun _ => 0
    stack := fun _ => 0
    sp := 0
    delay_timer := 0
    sound_timer := 0
    keypad := fun _ => 0 }

/-- Checked read of `self.memory[i]` (length 4096). -/
def readMem (s : CPU) (i : Nat) : Except Err Nat :=
  if i < 4096 then .ok (s.memory i) else .error .indexOutOfBounds

/-- Checked store to `self.memory[i]` (length 4096). -/
def writeMem (s : CPU) (i v : Nat) : Except Err CPU :=
  if i < 4096 then .ok { s with memory := upd s.memory i v }
  else .error .indexOutOfBounds

/-- Checked read of `self.stack[i]` (length 16). -/
def readStack (s : CPU) (i : Nat) : Except Err Nat :=
  if i < 16 then .ok (s.stack i) else .error .indexOutOfBounds

/-- Checked store to `self.stack[i]` (length 16). -/
def writeStack (s : CPU) (i v : Nat) : Except Err CPU :=
  if i < 16 then .ok { s with stack := upd s.stack i v }
  else .error .indexOutOfBounds

/-- Checked read of `self.keypad[i]` (length 16); the index is a full `u8`
register value in `opcode_skp`/`opcode_sknp`, so it can be out of range. -/
def readKeypad (s : CPU) (i : Nat) : Except Err Nat :=
  if i < 16 then .ok (s.keypad i) else .error .indexOutOfBounds

/-- Source `get_pixel`: read the first byte of the pixel's RGB triplet
(`display` has length `DISPLAY_SIZE = 6144`) and translate 255/0 to 1/0,
panicking on any other value. -/
def get_pixel (s : CPU) (pixel_index : Nat) : Except Err Nat :=
  let triplet_index := pixel_index * 3
  if triplet_index < DISPLAY_SIZE then
    let red := s.display triplet_index
    if red = 255 then .ok 1
    else if red = 0 then .ok 0
    else .error (.badRed red)
  else .error .indexOutOfBounds

/-- Source `set_pixel`: write 255 (state 1) or 0 (state 0) to all three bytes of
the pixel's triplet, panicking on any other `state`.  The three stores
`display[3i]`, `display[3i+1]`, `display[3i+2]` are in bounds exactly when
`3i < 6144` (6144 is a multiple of 3), so a single check is faithful. -/
def set_pixel (s : CPU) (pixel_index state : Nat) : Except Err CPU :=
  let triplet_index := pixel_index * 3
  if state = 1 ∨ state = 0 then
    let pixel_value := if state = 1 then 255 else 0
    if triplet_index + 2 < DISPLAY_SIZE then
      let d1 := upd s.display (triplet_index + 0) pixel_value
      let d2 := upd d1 (triplet_index + 1) pixel_value
      let d3 := upd d2 (triplet_index + 2) pixel_value
      .ok { s with display := d3 }
    else .error .indexOutOfBounds
  else .error (.badPixelState state)

/-- Source `xor_pixel`: `if self.get_pixel(i) == state { self.set_pixel(i, 0) }
else { self.set_pixel(i, 1) }`. -/
def xor_pixel (s : CPU) (pixel_index state : Nat) : Except Err CPU := do
  let cur ← s.get_pixel pixel_index
  if cur = state then s.set_pixel pixel_index 0
  else s.set_pixel pixel_index 1

/-- Source `fetch_opcode`: merge the two bytes at `pc` big-endian. -/
def fetch_opcode (s : CPU) : Except Err CPU := do
  let byte1 ← s.readMem s.pc
  let byte2 ← s.readMem (s.pc + 1)
  .ok { s with opcode := (byte1 <<< 8) ||| byte2 }

/-- Opcode 00E0: `opcode_cls`. -/
def opcode_cls (s : CPU) : Except Err CPU :=
  .ok { s with display := fun _ => 0, pc := s.pc + 2 }

/-- Opcode 00EE: `opcode_ret`: `self.sp -= 1; self.pc = self.stack[self.sp];
self.pc += 2;`.  With `sp = 0` the `usize` decrement panics (debug) or wraps
to `usize::MAX` and the `stack` index immediately panics (release). -/
def opcode_ret (s : CPU) : Except Err CPU :=
  if s.sp = 0 then .error .subOverflow
  else do
    let sp1 := s.sp - 1
    let ret ← s.readStack sp1
    .ok { s with sp := sp1, pc := ret + 2 }

/-- Opcode 1nnn: `opcode_jp`. -/
def opcode_jp (s : CPU) : Except Err CPU :=
  .ok { s with pc := Opcode.nnn s.opcode }

/-- Opcode 2nnn: `opcode_call`: `self.stack[self.sp] = self.pc; self.sp += 1;
self.pc = self.opcode.nnn();`. -/
def opcode_call (s : CPU) : Except Err CPU := do
  let s1 ← s.writeStack s.sp s.pc
  .ok { s1 with sp := s1.sp + 1, pc := Opcode.nnn s1.opcode }

/-- Opcode 3xkk: `opcode_se_byte`. -/
def opcode_se_byte (s : CPU) : Except Err CPU :=
  let pc1 := if s.v_reg (Opcode.x s.opcode) = Opcode.kk s.opcode
    then s.pc + 2 else s.pc
  .ok { s with pc := pc1 + 2 }

/-- Opcode 4xkk: `opcode_sne_byte`. -/
def opcode_sne_byte (s : CPU) : Except Err CPU :=
  let pc1 := if s.v_reg (Opcode.x s.opcode) ≠ Opcode.kk s.opcode
    then s.pc + 2 else s.pc
  .ok { s with pc := pc1 + 2 }

/-- Opcode 5xy0: `opcode_se_vx`. -/
def opcode_se_vx (s : CPU) : Except Err CPU :=
  let pc1 := if s.v_reg (Opcode.x s.opcode) = s.v_reg (Opcode.y s.opcode)
    then s.pc + 2 else s.pc
  .ok { s with pc := pc1 + 2 }

/-- Opcode 6xkk: `opcode_ld_byte`. -/
def opcode_ld_byte (s : CPU) : Except Err CPU :=
  .ok { s with v_reg := upd s.v_reg (Opcode.x s.opcode) (Opcode.kk s.opcode)
               pc := s.pc + 2 }

/-- Opcode 7xkk: `opcode_add_byte`: `wrapping_add` on `u8`. -/
def opcode_add_byte (s : CPU) : Except Err CPU :=
  let vx := s.v_reg (Opcode.x s.opcode)
  .ok { s with
    v_reg := upd s.v_reg (Opcode.x s.opcode) ((vx + Opcode.kk s.opcode) % 256)
    pc := s.pc + 2 }

/-- Opcode 8xy0: `opcode_ld_vy`. -/
def opcode_ld_vy (s : CPU) : Except Err CPU :=
  .ok { s with
    v_reg := upd s.v_reg (Opcode.x s.opcode) (s.v_reg (Opcode.y s.opcode))
    pc := s.pc + 2 }

/-- Opcode 8xy1: `opcode_or`. -/
def opcode_or (s : CPU) : Except Err CPU :=
  let vx := s.v_reg (Opcode.x s.opcode)
  let vy := s.v_reg (Opcode.y s.opcode)
  .ok { s with v_reg := upd s.v_reg (Opcode.x s.opcode) (vx ||| vy)
               pc := s.pc + 2 }

/-- Opcode 8xy2: `opcode_and`. -/
def opcode_and (s : CPU) : Except Err CPU :=
  let vx := s.v_reg (Opcode.x s.opcode)
  let vy := s.v_reg (Opcode.y s.opcode)
  .ok { s with v_reg := upd s.v_reg (Opcode.x s.opcode) (vx &&& vy)
               pc := s.pc + 2 }

/-- Opcode 8xy3: `opcode_xor`. -/
def opcode_xor (s : CPU) : Except Err CPU :=
  let vx := s.v_reg (Opcode.x s.opcode)
  let vy := s.v_reg (Opcode.y s.opcode)
  .ok { s with v_reg := upd s.v_reg (Opcode.x s.opcode) (vx ^^^ vy)
               pc := s.pc + 2 }

/-- Opcode 8xy4: `opcode_add`: `overflowing_add` on `u8`; VF is written first,
then the result (so with `x = 0xF` the result overwrites the flag, as in
the source's statement order). -/
def opcode_add (s : CPU) : Except Err CPU :=
  let vx := s.v_reg (Opcode.x s.opcode)
  let vy := s.v_reg (Opcode.y s.opcode)
  let result := (vx + vy) % 256
  let flag := if vx + vy ≥ 256 then 1 else 0
  let v1 := upd s.v_reg 0xF flag
  .ok { s with v_reg := upd v1 (Opcode.x s.opcode) result, pc := s.pc + 2 }

/-- Opcode 8xy5: `opcode_sub`: `overflowing_sub` on `u8`; VF = 1 when no borrow. -/
def opcode_sub (s : CPU) : Except Err CPU :=
  let vx := s.v_reg (Opcode.x s.opcode)
  let vy := s.v_reg (Opcode.y s.opcode)
  let result := if vx < vy then vx + 256 - vy else vx - vy
  let flag := if vx < vy then 0 else 1
  let v1 := upd s.v_reg 0xF flag
  .ok { s with v_reg := upd v1 (Opcode.x s.opcode) result, pc := s.pc + 2 }

/-- Opcode 8xy6: `opcode_shr`: VF gets the pre-shift least-significant bit. -/
def opcode_shr (s : CPU) : Except Err CPU :=
  let lsb := s.v_reg (Opcode.x s.opcode) &&& 0x01
  let v1 := upd s.v_reg 0xF lsb
  .ok { s with v_reg := upd v1 (Opcode.x s.opcode) (v1 (Opcode.x s.opcode) >>> 1)
               pc := s.pc + 2 }

/-- Opcode 8xy7: `opcode_subn`: `vy.overflowing_sub(vx)`; VF = 1 when no borrow. -/
def opcode_subn (s : CPU) : Except Err CPU :=
  let vx := s.v_reg (Opcode.x s.opcode)
  let vy := s.v_reg (Opcode.y s.opcode)
  let result := if vy < vx then vy + 256 - vx else vy - vx
  let flag := if vy < vx then 0 else 1
  let v1 := upd s.v_reg 0xF flag
  .ok { s with v_reg := upd v1 (Opcode.x s.opcode) result, pc := s.pc + 2 }

/-- Opcode 8xyE: `opcode_shl`: `let msb = self.v_reg[x] & 0x80;
self.v_reg[0xF] = msb; self.v_reg[x] <<= 1;`.  The `u8` left shift wraps
(the high bit is discarded).  The flag store precedes the shift, so with
`x = 0xF` the shift reads the freshly written flag, as in the source. -/
def opcode_shl (s : CPU) : Except Err CPU :=
  let msb := s.v_reg (Opcode.x s.opcode) &&& 0x80
  let v1 := upd s.v_reg 0xF msb
  .ok { s with
    v_reg := upd v1 (Opcode.x s.opcode) ((v1 (Opcode.x s.opcode) <<< 1) % 256)
    pc := s.pc + 2 }

/-- Opcode 9xy0: `opcode_sne`. -/
def opcode_sne (s : CPU) : Except Err CPU :=
  let pc1 := if s.v_reg (Opcode.x s.opcode) ≠ s.v_reg (Opcode.y s.opcode)
    then s.pc + 2 else s.pc
  .ok { s with pc := pc1 + 2 }

/-- Opcode Annn: `opcode_ld`. -/
def opcode_ld (s : CPU) : Except Err CPU :=
  .ok { s with i_addr := Opcode.nnn s.opcode, pc := s.pc + 2 }

/-- Opcode Bnnn: `opcode_jp_v0`: `self.pc = self.opcode.nnn();
self.pc += self.v_reg[0] as usize;`. -/
def opcode_jp_v0 (s : CPU) : Except Err CPU :=
  .ok { s with pc := Opcode.nnn s.opcode + s.v_reg 0 }

/-- Opcode Cxkk: `opcode_rnd`: the random `u8` produced by `thread_rng().gen()`
is passed in as the parameter `rand`. -/
def opcode_rnd (rand : Nat) (s : CPU) : Except Err CPU :=
  .ok { s with
    v_reg := upd s.v_reg (Opcode.x s.opcode) (rand &&& Opcode.kk s.opcode)
    pc := s.pc + 2 }

/-- One iteration of the inner pixel loop of `opcode_drw` for bit
`pixel_number` of sprite byte `sprite_row`.  The `wrapping_add` on `usize`
cannot wrap (both operands are far below `2^64`), so it is plain addition;
the two `usize` subtractions cannot underflow under their guards, so `Nat`
truncated subtraction coincides. -/
def drw_bit (starting_pixel row_number sprite_row pixel_number : Nat)
    (t : CPU) : Except Err CPU := do
  let sprite_pixel := if sprite_row &&& (0x80 >>> pixel_number) = 0 then 0 else 1
  let target0 := starting_pixel + (row_number * DISPLAY_WIDTH + pixel_number)
  let target1 := if target0 > 2047 then target0 - DISPLAY_WIDTH * 31 else target0
  let target_pixel_index :=
    if starting_pixel + pixel_number ≥ DISPLAY_WIDTH
    then target1 - DISPLAY_WIDTH else target1
  let cur ← t.get_pixel target_pixel_index
  let t1 := if cur = 1 then { t with v_reg := upd t.v_reg 0xF 1 } else t
  t1.xor_pixel target_pixel_index sprite_pixel

/-- One iteration of the row loop of `opcode_drw`: read the sprite byte at
`I + row_number`, then run the 8-bit inner loop. -/
def drw_row (starting_pixel row_number : Nat) (t : CPU) : Except Err CPU := do
  let sprite_row ← t.readMem (t.i_addr + row_number)
  (List.range 8).foldlM
    (fun u pixel_number => drw_bit starting_pixel row_number sprite_row pixel_number u) t

/-- Opcode Dxyn: `opcode_drw`: draw the n-row sprite at `(Vx, Vy)` from
`memory[I..I+n]`, clearing VF first and setting it on collision. -/
def opcode_drw (s : CPU) : Except Err CPU := do
  let x := s.v_reg (Opcode.x s.opcode)
  let y := s.v_reg (Opcode.y s.opcode)
  let n := Opcode.n s.opcode
  let starting_pixel := x + y * DISPLAY_WIDTH
  let s0 := { s with v_reg := upd s.v_reg 0xF 0 }
  let s1 ← (List.range n).foldlM
    (fun t row_number => drw_row starting_pixel row_number t) s0
  .ok { s1 with pc := s1.pc + 2 }

/-- Opcode Ex9E: `opcode_skp`: `self.keypad[vx as usize]` with `vx` a full `u8`,
so the access is checked. -/
def opcode_skp (s : CPU) : Except Err CPU := do
  let vx := s.v_reg (Opcode.x s.opcode)
  let k ← s.readKeypad vx
  let pc1 := if k = 1 then s.pc + 2 else s.pc
  .ok { s with pc := pc1 + 2 }

/-- Opcode ExA1: `opcode_sknp`. -/
def opcode_sknp (s : CPU) : Except Err CPU := do
  let vx := s.v_reg (Opcode.x s.opcode)
  let k ← s.readKeypad vx
  let pc1 := if k = 0 then s.pc + 2 else s.pc
  .ok { s with pc := pc1 + 2 }

/-- Opcode Fx07: `opcode_get_dt`. -/
def opcode_get_dt (s : CPU) : Except Err CPU :=
  .ok { s with v_reg := upd s.v_reg (Opcode.x s.opcode) s.delay_timer
               pc := s.pc + 2 }

/-- Opcode Fx0A: `opcode_waitkey`: a stub in the source — only advances `pc`. -/
def opcode_waitkey (s : CPU) : Except Err CPU :=
  .ok { s with pc := s.pc + 2 }

/-- Opcode Fx15: `opcode_set_dt`. -/
def opcode_set_dt (s : CPU) : Except Err CPU :=
  .ok { s with delay_timer := s.v_reg (Opcode.x s.opcode), pc := s.pc + 2 }

/-- Opcode Fx18: `opcode_set_st`. -/
def opcode_set_st (s : CPU) : Except Err CPU :=
  .ok { s with sound_timer := s.v_reg (Opcode.x s.opcode), pc := s.pc + 2 }

/-- Opcode Fx1E: `opcode_add_i`: `usize` addition, cannot wrap here. -/
def opcode_add_i (s : CPU) : Except Err CPU :=
  .ok { s with i_addr := s.i_addr + s.v_reg (Opcode.x s.opcode), pc := s.pc + 2 }

/-- Opcode Fx29: `opcode_set_sprite`: `vx * 5` is a `u8` multiplication, so it
wraps mod 256 (release-build semantics; the source comment assumes
`vx ≤ 0xF`, where no wrap occurs). -/
def opcode_set_sprite (s : CPU) : Except Err CPU :=
  let vx := s.v_reg (Opcode.x s.opcode)
  .ok { s with i_addr := FONTSET_START + (vx * 5) % 256, pc := s.pc + 2 }

/-- Opcode Fx33: `opcode_bcd_vx`. -/
def opcode_bcd_vx (s : CPU) : Except Err CPU := do
  let vx := s.v_reg (Opcode.x s.opcode)
  let hundreds := vx / 100
  let tens := (vx - hundreds * 100) / 10
  let ones := vx - hundreds * 100 - tens * 10
  let s1 ← s.writeMem (s.i_addr + 0) hundreds
  let s2 ← s1.writeMem (s1.i_addr + 1) tens
  let s3 ← s2.writeMem (s2.i_addr + 2) ones
  .ok { s3 with pc := s3.pc + 2 }

/-- Opcode Fx55: `opcode_store_vx`: `for i in 0..=x { memory[I + i] = V[i] }`. -/
def opcode_store_vx (s : CPU) : Except Err CPU := do
  let x := Opcode.x s.opcode
  let s1 ← (List.range (x + 1)).foldlM
    (fun t i => t.writeMem (t.i_addr + i) (t.v_reg i)) s
  .ok { s1 with pc := s1.pc + 2 }

/-- Opcode Fx65: `opcode_read_vx`: `for i in 0..=x { V[i] = memory[I + i] }`. -/
def opcode_read_vx (s : CPU) : Except Err CPU := do
  let x := Opcode.x s.opcode
  let s1 ← (List.range (x + 1)).foldlM
    (fun t i => do
      let b ← t.readMem (t.i_addr + i)
      pure { t with v_reg := upd t.v_reg i b }) s
  .ok { s1 with pc := s1.pc + 2 }

/-- Source `decode_opcode`: the two-level dispatch of `src/lib.rs`.  Every
`panic!("unknown opcode ...")` arm becomes `.error (.unknownOpcode op)`.
The random byte consumed by `opcode_rnd` is passed in as `rand`. -/
def decode_opcode (rand : Nat) (s : CPU) : Except Err CPU :=
  match s.opcode &&& 0xF000 with
  | 0x0000 =>
    (match s.opcode &&& 0x00FF with
     | 0x00E0 => s.opcode_cls
     | 0x00EE => s.opcode_ret
     | _ => .error (.unknownOpcode s.opcode))
  | 0x1000 => s.opcode_jp
  | 0x2000 => s.opcode_call
  | 0x3000 => s.opcode_se_byte
  | 0x4000 => s.opcode_sne_byte
  | 0x5000 => s.opcode_se_vx
  | 0x6000 => s.opcode_ld_byte
  | 0x7000 => s.opcode_add_byte
  | 0x8000 =>
    (match s.opcode &&& 0x000F with
     | 0x0000 => s.opcode_ld_vy
     | 0x0001 => s.opcode_or
     | 0x0002 => s.opcode_and
     | 0x0003 => s.opcode_xor
     | 0x0004 => s.opcode_add
     | 0x0005 => s.opcode_sub
     | 0x0006 => s.opcode_shr
     | 0x0007 => s.opcode_subn
     | 0x000E => s.opcode_shl
     | _ => .error (.unknownOpcode s.opcode))
  | 0x9000 => s.opcode_sne
  | 0xA000 => s.opcode_ld
  | 0xB000 => s.opcode_jp_v0
  | 0xC000 => opcode_rnd rand s
  | 0xD000 => s.opcode_drw
  | 0xE000 =>
    (match s.opcode &&& 0xF0FF with
     | 0xE09E => s.opcode_skp
     | 0xE0A1 => s.opcode_sknp
     | _ => .error (.unknownOpcode s.opcode))
  | 0xF000 =>
    (match s.opcode &&& 0xF0FF with
     | 0xF007 => s.opcode_get_dt
     | 0xF00A => s.opcode_waitkey
     | 0xF015 => s.opcode_set_dt
     | 0xF018 => s.opcode_set_st
     | 0xF01E => s.opcode_add_i
     | 0xF029 => s.opcode_set_sprite
     | 0xF033 => s.opcode_bcd_vx
     | 0xF055 => s.opcode_store_vx
     | 0xF065 => s.opcode_read_vx
     | _ => .error (.unknownOpcode s.opcode))
  | _ => .error (.unknownOpcode s.opcode)

/-- Source `update_timers`. -/
def update_timers (s : CPU) : CPU :=
  { s with
    delay_timer := if s.delay_timer > 0 then s.delay_timer - 1 else s.delay_timer
    sound_timer := if s.sound_timer > 0 then s.sound_timer - 1 else s.sound_timer }

/-- Source `emulate_cycle`: fetch, decode-execute, update timers. -/
def emulate_cycle (rand : Nat) (s : CPU) : Except Err CPU := do
  let s1 ← s.fetch_opcode
  let s2 ← decode_opcode rand s1
  .ok s2.update_timers

/-- The key identifiers `keycode_to_hex` recognizes (SDL2 keycodes);
`other` stands for every unmapped key. -/
inductive Keycode where
  | num1 | num2 | num3 | num4
  | kq | kw | ke | kr
  | ka | ks | kd | kf
  | kz | kx | kc | kv
  | other
deriving Repr, DecidableEq

/-- Source `keycode_to_hex`: the fixed keyboard-to-keypad table. -/
def keycode_to_hex (key : Keycode) : Option Nat :=
  match key with
  | .num1 => some 0x1
  | .num2 => some 0x2
  | .num3 => some 0x3
  | .num4 => some 0xC
  | .kq => some 0x4
  | .kw => some 0x5
  | .ke => some 0x6
  | .kr => some 0xD
  | .ka => some 0x7
  | .ks => some 0x8
  | .kd => some 0x9
  | .kf => some 0xE
  | .kz => some 0xA
  | .kx => some 0x0
  | .kc => some 0xB
  | .kv => some 0xF
  | .other => none

/-- Source `update_keypad`: store `key_down as u8` in the mapped slot, ignore
unmapped keys. -/
def update_keypad (s : CPU) (key : Keycode) (key_down : Bool) : CPU :=
  match keycode_to_hex key with
  | some hex => { s with keypad := upd s.keypad hex (if key_down then 1 else 0) }
  | none => s

/-- Source `load_rom`, abstracted over file I/O: the byte sequence read from the
file is passed in directly and copied into memory starting at
`PROGRAM_ROM_START`; `File::read` fills at most the remaining
`4096 - 0x200 = 3584` bytes. -/
def load_image (s : CPU) (bytes : List Nat) : CPU :=
  { s with memory := fun j =>
      if PROGRAM_ROM_START ≤ j ∧ j < PROGRAM_ROM_START + min bytes.length 3584
      then bytes.getD (j - PROGRAM_ROM_START) 0
      else s.memory j }

end CPU

/-! ## Derived definitions used by the claims -/

namespace CPU

/-- The display-framebuffer invariant of the spec: every logical pixel's
three encoding bytes are identical, and each is 0 (off) or 255 (fully on). -/
def DisplayInv (s : CPU) : Prop :=
  ∀ p, p < DISPLAY_WIDTH * DISPLAY_HEIGHT →
    s.display (p * 3) = s.display (p * 3 + 1) ∧
    s.display (p * 3 + 1) = s.display (p * 3 + 2) ∧
    (s.display (p * 3) = 0 ∨ s.display (p * 3) = 255)

/-- Extract the resulting state of a successful operation (defaulting to
`CPU.new`); used only to build concrete example states. -/
def okState (e : Except Err CPU) : CPU :=
  match e with
  | .ok t => t
  | .error _ => CPU.new

end CPU

/-- The target-pixel formula exactly as the claim states it: candidate
index `(Vx + 64*Vy) + 64*row + column`, then vertical wrap (`> 2047` ⇒
subtract `31*64`), then horizontal wrap keyed on the STARTING COLUMN `Vx`
plus the bit's column.  (Written from the claim's words, to be compared
with what `opcode_drw` actually computes.) -/
def claim_target_index (vx vy row col : Nat) : Nat :=
  let t0 := (vx + 64 * vy) + 64 * row + col
  let t1 := if t0 > 2047 then t0 - 31 * 64 else t0
  if vx + col ≥ 64 then t1 - 64 else t1

/-- The target-pixel formula the code computes (`opcode_drw`, lines
419–429): identical except that the horizontal-wrap condition tests
`starting_pixel + column` where `starting_pixel = Vx + 64*Vy` is the full
starting pixel INDEX, not the starting column. -/
def code_target_index (vx vy row col : Nat) : Nat :=
  let starting_pixel := vx + vy * DISPLAY_WIDTH
  let t0 := starting_pixel + (row * DISPLAY_WIDTH + col)
  let t1 := if t0 > 2047 then t0 - DISPLAY_WIDTH * 31 else t0
  if starting_pixel + col ≥ DISPLAY_WIDTH then t1 - DISPLAY_WIDTH else t1

/-- The opcode patterns defined by the spec's instruction table (§4.2),
read literally: 00E0, 00EE, 1nnn, 2nnn, 3xkk, 4xkk, 5xy0, 6xkk, 7xkk,
8xy0–8xy7, 8xyE, 9xy0, Annn, Bnnn, Cxkk, Dxyn, Ex9E, ExA1, Fx07, Fx0A,
Fx15, Fx18, Fx1E, Fx29, Fx33, Fx55, Fx65. -/
def spec_defined_opcode (op : Nat) : Bool :=
  (op = 0x00E0) || (op = 0x00EE) ||
  (op &&& 0xF000 = 0x1000) || (op &&& 0xF000 = 0x2000) ||
  (op &&& 0xF000 = 0x3000) || (op &&& 0xF000 = 0x4000) ||
  (op &&& 0xF00F = 0x5000) ||
  (op &&& 0xF000 = 0x6000) || (op &&& 0xF000 = 0x7000) ||
  (op &&& 0xF000 = 0x8000 &&
    (op &&& 0x000F ≤ 0x7 || op &&& 0x000F = 0xE)) ||
  (op &&& 0xF00F = 0x9000) ||
  (op &&& 0xF000 = 0xA000) || (op &&& 0xF000 = 0xB000) ||
  (op &&& 0xF000 = 0xC000) || (op &&& 0xF000 = 0xD000) ||
  (op &&& 0xF0FF = 0xE09E) || (op &&& 0xF0FF = 0xE0A1) ||
  (op &&& 0xF0FF = 0xF007) || (op &&& 0xF0FF = 0xF00A) ||
  (op &&& 0xF0FF = 0xF015) || (op &&& 0xF0FF = 0xF018) ||
  (op &&& 0xF0FF = 0xF01E) || (op &&& 0xF0FF = 0xF029) ||
  (op &&& 0xF0FF = 0xF033) || (op &&& 0xF0FF = 0xF055) ||
  (op &&& 0xF0FF = 0xF065)

/-- The opcode patterns `decode_opcode` actually dispatches to a handler
(the complement of its `panic!` arms): the 0-group tests only the low
byte, and the 5/9/D groups ignore the low nibble. -/
def code_defined_opcode (op : Nat) : Bool :=
  (op &&& 0xF000 = 0x0000 &&
    (op &&& 0x00FF = 0x00E0 || op &&& 0x00FF = 0x00EE)) ||
  (op &&& 0xF000 = 0x1000) || (op &&& 0xF000 = 0x2000) ||
  (op &&& 0xF000 = 0x3000) || (op &&& 0xF000 = 0x4000) ||
  (op &&& 0xF000 = 0x5000) ||
  (op &&& 0xF000 = 0x6000) || (op &&& 0xF000 = 0x7000) ||
  (op &&& 0xF000 = 0x8000 &&
    (op &&& 0x000F ≤ 0x7 || op &&& 0x000F = 0xE)) ||
  (op &&& 0xF000 = 0x9000) ||
  (op &&& 0xF000 = 0xA000) || (op &&& 0xF000 = 0xB000) ||
  (op &&& 0xF000 = 0xC000) || (op &&& 0xF000 = 0xD000) ||
  (op &&& 0xF0FF = 0xE09E) || (op &&& 0xF0FF = 0xE0A1) ||
  (op &&& 0xF0FF = 0xF007) || (op &&& 0xF0FF = 0xF00A) ||
  (op &&& 0xF0FF = 0xF015) || (op &&& 0xF0FF = 0xF018) ||
  (op &&& 0xF0FF = 0xF01E) || (op &&& 0xF0FF = 0xF029) ||
  (op &&& 0xF0FF = 0xF033) || (op &&& 0xF0FF = 0xF055) ||
  (op &&& 0xF0FF = 0xF065)

/-! ### Concrete example states -/

/-- C1 failing input: `V0 = 0`, `V1 = 1`, `I = 0x300`, `memory[I] = 0x80`
(one sprite bit, in column 0), opcode `D011` — draw the 1-row sprite at
column 0, row 1. -/
def c1state : CPU :=
  { CPU.new with
    v_reg := upd CPU.new.v_reg 1 1
    i_addr := 0x300
    memory := upd CPU.new.memory 0x300 0x80
    opcode := 0xD011 }

/-- C4 counterexample input: a ROM whose first instruction is `0x01E0` —
top nibble 0, but not `00E0`. -/
def c4state : CPU := CPU.new.load_image [0x01, 0xE0]

/-- The state after one `emulate_cycle` on `c4state` (which succeeds,
executing CLS, although `0x01E0` matches no spec-defined pattern). -/
def c4res : CPU := CPU.okState (CPU.emulate_cycle 0 c4state)

/-- C5 counterexample input: opcode `8F0E` (`x = 0xF`) with `VF = 0x80`. -/
def c5state : CPU :=
  { CPU.new with v_reg := upd CPU.new.v_reg 0xF 0x80, opcode := 0x8F0E }

/-- A state for the C5 witness: opcode `850E` (`x = 5`), `V5 = 0x81`. -/
def c5wstate : CPU :=
  { CPU.new with v_reg := upd CPU.new.v_reg 5 0x81, opcode := 0x850E }

/-- A state for the C6 witness: pixel 7 on, everything else off. -/
def c6state : CPU := CPU.okState (CPU.new.set_pixel 7 1)

/-- A state for the C8 witness: opcode `F255` / `F265`, `I = 0x932`,
`V0..V2` set. -/
def c8state : CPU :=
  { CPU.new with
    v_reg := upd (upd (upd CPU.new.v_reg 0 0xAA) 1 0xAB) 2 0xBB
    i_addr := 0x932
    opcode := 0xF255 }

/-- The state after `opcode_store_vx` on `c8state`. -/
def c8store_res : CPU := CPU.okState c8state.opcode_store_vx

/-- The state after `opcode_read_vx` on `c8state`. -/
def c8read_res : CPU := CPU.okState c8state.opcode_read_vx

/-- A state for the C9 witness: a ROM whose first instruction is `00E0`. -/
def c9state : CPU := CPU.new.load_image [0x00, 0xE0]

/-- The state after one `emulate_cycle` on `c9state`. -/
def c9res : CPU := CPU.okState (CPU.emulate_cycle 0 c9state)

/-- The state after one `emulate_cycle` on `c9state`, for the C7 witness. -/
def c7res : CPU := CPU.okState (CPU.emulate_cycle 0 c9state)

/-- A state for the C10 witness: opcode `C300` (`x = 3`, `kk = 0`). -/
def c10state : CPU := { CPU.new with opcode := 0xC300 }

/-! ## Helper lemmas -/

theorem upd_same (f : Nat → Nat) (i v : Nat) : upd f i v i = v := by
  simp [upd]

theorem upd_ne (f : Nat → Nat) (i v j : Nat) (h : j ≠ i) : upd f i v j = f j := by
  simp [upd, h]

theorem land_zero (n : Nat) : n &&& 0 = 0 := by
  simp [HAnd.hAnd, AndOp.and, Nat.land, Nat.bitwise_zero_right]

@[simp] theorem ok_bind {ε α β : Type} (a : α) (f : α → Except ε β) :
    (Except.ok a >>= f) = f a := rfl

@[simp] theorem error_bind {ε α β : Type} (e : ε) (f : α → Except ε β) :
    ((Except.error e : Except ε α) >>= f) = Except.error e := rfl

@[simp] theorem ok_map {ε α β : Type} (a : α) (f : α → β) :
    (Except.ok a : Except ε α).map f = Except.ok (f a) := rfl

@[simp] theorem error_map {ε α β : Type} (e : ε) (f : α → β) :
    (Except.error e : Except ε α).map f = Except.error e := rfl

namespace CPU

/-- Generic preservation of a predicate through a `foldlM` over `Except`. -/
theorem foldlM_ok_preserve {α : Type} (P : CPU → Prop)
    (f : CPU → α → Except Err CPU)
    (hf : ∀ t a t', P t → f t a = .ok t' → P t') :
    ∀ (l : List α) (t t' : CPU), P t → List.foldlM f t l = .ok t' → P t' := by
  intro l
  induction l with
  | nil =>
    intro t t' hP hok
    simp only [List.foldlM_nil] at hok
    cases hok
    exact hP
  | cons a l ih =>
    intro t t' hP hok
    simp only [List.foldlM_cons] at hok
    cases hfa : f t a with
    | error e => rw [hfa] at hok; simp at hok
    | ok u =>
      rw [hfa] at hok
      rw [ok_bind] at hok
      exact ih u t' (hf t a u hP hfa) hok

end CPU

/-! ## Claim C2: stack overflow / underflow are fatal errors -/

/-- Claim C2: executing 2nnn (call) with stack pointer 16 and executing
00EE (return) with stack pointer 0 are fatal reported errors: both surface
an `Except.error` (the embedded Rust panic) rather than wrapping the stack
pointer or continuing. -/
theorem C2_stack_over_underflow_fatal (s : CPU) :
    (s.sp = 16 → s.opcode_call = Except.error Err.indexOutOfBounds) ∧
    (s.sp = 0 → s.opcode_ret = Except.error Err.subOverflow) := by
  constructor
  · intro h
    simp [CPU.opcode_call, CPU.writeStack, h]
  · intro h
    simp [CPU.opcode_ret, h]

/-- Witness for C2 at the concrete states `sp = 16` and `sp = 0`. -/
theorem C2_witness :
    ({ CPU.new with sp := 16 } : CPU).opcode_call
        = Except.error Err.indexOutOfBounds ∧
    CPU.new.opcode_ret = Except.error Err.subOverflow :=
  ⟨(C2_stack_over_underflow_fatal _).1 rfl,
   (C2_stack_over_underflow_fatal _).2 rfl⟩

/-! ## Claim C3: call / return round-trip -/

/-- Claim C3: from any state with stack pointer below 16 and program
counter p, executing 2nnn (call) and then 00EE (return) succeeds and
restores the program counter to p + 2 and the stack pointer to its
pre-call value. -/
theorem C3_call_ret_roundtrip (s : CPU) (h : s.sp < 16) :
    (s.opcode_call >>= CPU.opcode_ret).map (fun t => (t.pc, t.sp)) =
      Except.ok (s.pc + 2, s.sp) := by
  simp [CPU.opcode_call, CPU.writeStack, if_pos h, CPU.opcode_ret,
    CPU.readStack, upd_same]

/-- Witness for C3 at `CPU.new` (stack pointer 0). -/
theorem C3_witness :
    (CPU.new.opcode_call >>= CPU.opcode_ret).map (fun t => (t.pc, t.sp)) =
      Except.ok (CPU.new.pc + 2, CPU.new.sp) :=
  C3_call_ret_roundtrip CPU.new (by decide)

/-! ## Claim C5: 8xyE (left shift) -/

/-- Counterexample to claim C5 as stated: with opcode `8F0E` (so `x = 0xF`)
and `VF = 0x80`, the resulting VF is 0, not the pre-shift `Vx & 0x80 =
0x80` the claim promises — the flag write and the shift alias register
`0xF`. -/
theorem C5_counterexample :
    c5state.opcode_shl.map (fun t => t.v_reg 0xF) ≠
      Except.ok (c5state.v_reg (Opcode.x c5state.opcode) &&& 0x80) := by
  decide

/-- Claim C5, amended: for every execution of 8xyE with `x ≠ 0xF`, VF is
set to the pre-shift `Vx & 0x80` (not normalized to 0/1), Vx becomes
`Vx * 2 % 256`, and the program counter advances by 2; when `x = 0xF` the
two writes target the same register in order, leaving VF = 0. -/
theorem C5_shl_amended (s : CPU) :
    (Opcode.x s.opcode ≠ 0xF →
      s.opcode_shl.map
          (fun t => (t.v_reg 0xF, t.v_reg (Opcode.x s.opcode), t.pc)) =
        Except.ok (s.v_reg (Opcode.x s.opcode) &&& 0x80,
          s.v_reg (Opcode.x s.opcode) * 2 % 256, s.pc + 2)) ∧
    (Opcode.x s.opcode = 0xF →
      s.opcode_shl.map (fun t => (t.v_reg 0xF, t.pc)) =
        Except.ok (0, s.pc + 2)) := by
  constructor
  · intro hx
    simp only [CPU.opcode_shl, ok_map, Except.ok.injEq, Prod.mk.injEq]
    refine ⟨?_, ?_, trivial⟩
    · rw [upd_ne _ _ _ _ (fun hc => hx hc.symm), upd_same]
    · rw [upd_same, upd_ne _ _ _ _ hx, Nat.shiftLeft_eq]
  · intro hx
    simp only [CPU.opcode_shl, ok_map, Except.ok.injEq, Prod.mk.injEq, hx]
    refine ⟨?_, trivial⟩
    rw [upd_same, upd_same, Nat.shiftLeft_eq]
    have h128 : s.v_reg 0xF &&& 0x80 = (s.v_reg 0xF &&& 0x80) % 256 ∧
        (s.v_reg 0xF &&& 0x80 = 0 ∨ s.v_reg 0xF &&& 0x80 = 128) := by
      have : s.v_reg 0xF &&& 2 ^ 7 = (Nat.testBit (s.v_reg 0xF) 7).toNat * 2 ^ 7 :=
        Nat.and_two_pow _ 7
      rcases Bool.eq_false_or_eq_true (Nat.testBit (s.v_reg 0xF) 7) with hb | hb <;>
        simp [hb] at this <;> simp [show (0x80 : Nat) = 2 ^ 7 by norm_num, this]
    rcases h128.2 with h0 | h0 <;> rw [h0]

/-- Witness for the amended C5 at opcode `850E` with `V5 = 0x81`. -/
theorem C5_witness :
    c5wstate.opcode_shl.map
        (fun t => (t.v_reg 0xF, t.v_reg (Opcode.x c5wstate.opcode), t.pc)) =
      Except.ok (c5wstate.v_reg (Opcode.x c5wstate.opcode) &&& 0x80,
        c5wstate.v_reg (Opcode.x c5wstate.opcode) * 2 % 256,
        c5wstate.pc + 2) :=
  (C5_shl_amended c5wstate).1 (by decide)

/-! ## Claim C10: Cxkk with kk = 0 ignores the random byte -/

/-- Claim C10: for every execution of Cxkk with kk = 0, Vx is set to 0,
and two runs that differ only in the generated random byte produce
identical resulting states. -/
theorem C10_rnd_mask_zero (s : CPU) (r1 r2 : Nat)
    (h : Opcode.kk s.opcode = 0) :
    CPU.opcode_rnd r1 s = CPU.opcode_rnd r2 s ∧
    (CPU.opcode_rnd r1 s).map (fun t => t.v_reg (Opcode.x s.opcode)) =
      Except.ok 0 := by
  constructor
  · simp only [CPU.opcode_rnd, h, land_zero]
  · simp only [CPU.opcode_rnd, h, land_zero, ok_map, upd_same]

/-- Witness for C10 at opcode `C300` with random bytes 0xAB and 0x13. -/
theorem C10_witness :
    CPU.opcode_rnd 0xAB c10state = CPU.opcode_rnd 0x13 c10state ∧
    (CPU.opcode_rnd 0xAB c10state).map
        (fun t => t.v_reg (Opcode.x c10state.opcode)) = Except.ok 0 :=
  C10_rnd_mask_zero c10state 0xAB 0x13 (by decide)

/-! ## Claim C6: the xor_pixel truth table -/

/-- Unfolding of `DISPLAY_SIZE`. -/
theorem DISPLAY_SIZE_eq : DISPLAY_SIZE = 6144 := rfl

/-- What a successful `set_pixel` does to the display. -/
theorem set_pixel_ok_of (s : CPU) (i st : Nat) (hst : st = 0 ∨ st = 1)
    (hb : i * 3 + 2 < DISPLAY_SIZE) :
    s.set_pixel i st = Except.ok { s with display := upd (upd (upd s.display (i * 3 + 0) (if st = 1 then 255 else 0)) (i * 3 + 1) (if st = 1 then 255 else 0)) (i * 3 + 2) (if st = 1 then 255 else 0) } := by
  rcases hst with h | h <;> subst h <;> simp [CPU.set_pixel, hb]

/-- Reading a pixel straight after writing it returns the written state. -/
theorem get_pixel_set_pixel (s : CPU) (i st : Nat) (hst : st = 0 ∨ st = 1)
    (hb : i * 3 + 2 < DISPLAY_SIZE) :
    (s.set_pixel i st) >>= (fun t => t.get_pixel i) = Except.ok st := by
  have hb1 : i * 3 < DISPLAY_SIZE := by
    rw [DISPLAY_SIZE_eq] at hb ⊢
    omega
  rw [set_pixel_ok_of s i st hst hb, ok_bind]
  rcases hst with h | h <;> subst h <;>
    simp [CPU.get_pixel, upd, hb1]

/-- Claim C6: for every pixel index and every on/off state, `xor_pixel`
turns the pixel off when the new state equals the existing state and on
when it differs. -/
theorem C6_xor_pixel_truth_table (s : CPU) (i st old : Nat)
    (hst : st = 0 ∨ st = 1) (hold : s.get_pixel i = Except.ok old) :
    (s.xor_pixel i st) >>= (fun t => t.get_pixel i) =
      Except.ok (if old = st then 0 else 1) := by
  have hb : i * 3 < DISPLAY_SIZE := by
    by_contra hc
    simp only [CPU.get_pixel, if_neg hc] at hold
    exact Except.noConfusion hold
  have hb2 : i * 3 + 2 < DISPLAY_SIZE := by
    rw [DISPLAY_SIZE_eq] at hb ⊢
    omega
  simp only [CPU.xor_pixel, hold, ok_bind]
  by_cases heq : old = st
  · rw [if_pos heq, if_pos heq]
    exact get_pixel_set_pixel s i 0 (Or.inl rfl) hb2
  · rw [if_neg heq, if_neg heq]
    exact get_pixel_set_pixel s i 1 (Or.inr rfl) hb2

/-- Witness for C6: at `c6state` pixel 7 is on; XOR-drawing state 1 onto it
turns it off. -/
theorem C6_witness :
    (c6state.xor_pixel 7 1) >>= (fun t => t.get_pixel 7) = Except.ok 0 :=
  C6_xor_pixel_truth_table c6state 7 1 1 (Or.inr rfl) (by decide)

/-! ## Claim C8: Fx55 / Fx65 leave the address register unchanged -/

/-- Destructuring a successful `Except` bind. -/
theorem bind_eq_ok {ε α β : Type} {e : Except ε α} {f : α → Except ε β}
    {b : β} (h : (e >>= f) = Except.ok b) :
    ∃ a, e = Except.ok a ∧ f a = Except.ok b := by
  cases e with
  | error err => simp at h
  | ok a => exact ⟨a, rfl, h⟩

/-- Claim C8: every successful execution of Fx55 (store V0..Vx at I) and
Fx65 (load V0..Vx from I) leaves the address register I unchanged. -/
theorem C8_store_read_preserve_i (s s1 s2 : CPU)
    (hst : s.opcode_store_vx = Except.ok s1)
    (hrd : s.opcode_read_vx = Except.ok s2) :
    s1.i_addr = s.i_addr ∧ s2.i_addr = s.i_addr := by
  constructor
  · simp only [CPU.opcode_store_vx] at hst
    obtain ⟨u, hu, hok⟩ := bind_eq_ok hst
    cases hok
    refine CPU.foldlM_ok_preserve (fun t => t.i_addr = s.i_addr) _ ?_ _ s u rfl hu
    intro t a t' hP hw
    simp only [CPU.writeMem] at hw
    split at hw
    · cases hw; exact hP
    · exact Except.noConfusion hw
  · simp only [CPU.opcode_read_vx] at hrd
    obtain ⟨u, hu, hok⟩ := bind_eq_ok hrd
    cases hok
    refine CPU.foldlM_ok_preserve (fun t => t.i_addr = s.i_addr) _ ?_ _ s u rfl hu
    intro t a t' hP hw
    simp only [CPU.readMem] at hw
    split at hw
    · rw [ok_bind] at hw
      cases hw
      exact hP
    · simp at hw

/-- Witness for C8 at `c8state` (opcode F255, I = 0x932). -/
theorem C8_witness :
    c8store_res.i_addr = c8state.i_addr ∧
    c8read_res.i_addr = c8state.i_addr :=
  C8_store_read_preserve_i c8state c8store_res c8read_res rfl rfl

/-! ## Claim C4: unknown opcodes are fatal decode errors -/

/-- Counterexample to claim C4 as stated: the fetched opcode `0x01E0`
matches none of the defined instruction patterns (it is `0x0***` but not
`00E0` or `00EE`), yet the cycle succeeds — the 0-group dispatch tests only
the low byte, so `0x01E0` silently executes CLS and the program counter
advances to 0x202. -/
theorem C4_counterexample :
    spec_defined_opcode 0x01E0 = false ∧
    CPU.emulate_cycle 0 c4state = Except.ok c4res ∧
    c4res.pc = 0x202 := by
  refine ⟨by decide, rfl, by decide⟩

/-- Claim C4, amended: for every fetched opcode outside the patterns the
decoder dispatches (where the 0-group is keyed on the low byte alone, so
`0x0nE0`/`0x0nEE` run CLS/RET for any middle nibble, and the 5/9/D groups
ignore the low nibble), decode fails with a fatal error carrying the
offending opcode; it never silently ignores the instruction. -/
theorem C4_unknown_opcode_fatal (rand : Nat) (s : CPU)
    (h : code_defined_opcode s.opcode = false) :
    CPU.decode_opcode rand s = Except.error (Err.unknownOpcode s.opcode) := by
  unfold CPU.decode_opcode
  split <;> try split
  all_goals first
    | rfl
    | simp_all [code_defined_opcode]

/-- Witness for the amended C4 at opcode `0x8FFF` (an 8-group opcode with
undefined low nibble). -/
theorem C4_witness :
    CPU.decode_opcode 0 { CPU.new with opcode := 0x8FFF } =
      Except.error (Err.unknownOpcode ({ CPU.new with opcode := 0x8FFF } : CPU).opcode) :=
  C4_unknown_opcode_fatal 0 { CPU.new with opcode := 0x8FFF } (by decide)

/-! ## Claim C1: the Dxyn wraparound rules -/

/-- Claim C1 (code bug, evaluated at the failing input): with `V0 = 0`,
`V1 = 1`, opcode `D011` and a one-byte sprite `0x80` (a single bit in
column 0), the claimed rule — horizontal wrap keyed on the starting COLUMN
plus the bit's column — places the bit at pixel index 64 (column 0, row 1),
but the code's condition tests the full starting pixel index
`Vx + 64*Vy = 64`, which already reaches 64, so 64 is subtracted and the
bit is drawn at pixel index 0 (row 0): after `opcode_drw`, pixel 0 is on
and pixel 64 is off. -/
theorem C1_drw_horizontal_wrap_divergence :
    claim_target_index 0 1 0 0 = 64 ∧
    code_target_index 0 1 0 0 = 0 ∧
    (c1state.opcode_drw >>= fun t => t.get_pixel 0) = Except.ok 1 ∧
    (c1state.opcode_drw >>= fun t => t.get_pixel 64) = Except.ok 0 := by
  refine ⟨by decide, by decide, by decide, by decide⟩

/-! ## Frame lemmas for a whole cycle (claims C7 and C9) -/

/-- Writing memory changes neither keypad nor display. -/
theorem writeMem_frame {s t : CPU} {i v : Nat}
    (h : s.writeMem i v = Except.ok t) :
    t.keypad = s.keypad ∧ t.display = s.display := by
  simp only [CPU.writeMem] at h
  split at h
  · cases h; exact ⟨rfl, rfl⟩
  · exact Except.noConfusion h

/-- Writing the stack changes neither keypad nor display. -/
theorem writeStack_frame {s t : CPU} {i v : Nat}
    (h : s.writeStack i v = Except.ok t) :
    t.keypad = s.keypad ∧ t.display = s.display := by
  simp only [CPU.writeStack] at h
  split at h
  · cases h; exact ⟨rfl, rfl⟩
  · exact Except.noConfusion h

/-- Source `set_pixel` leaves the keypad unchanged. -/
theorem set_pixel_keypad {s t : CPU} {i st : Nat}
    (h : s.set_pixel i st = Except.ok t) : t.keypad = s.keypad := by
  simp only [CPU.set_pixel] at h
  split at h
  · split at h
    · cases h; rfl
    · exact Except.noConfusion h
  · exact Except.noConfusion h

/-- Source `xor_pixel` leaves the keypad unchanged. -/
theorem xor_pixel_keypad {s t : CPU} {i st : Nat}
    (h : s.xor_pixel i st = Except.ok t) : t.keypad = s.keypad := by
  simp only [CPU.xor_pixel] at h
  obtain ⟨cur, hc, h2⟩ := bind_eq_ok h
  split at h2 <;> exact set_pixel_keypad h2

/-- One draw-loop bit leaves the keypad unchanged. -/
theorem drw_bit_keypad {start row sr pix : Nat} {t u : CPU}
    (h : CPU.drw_bit start row sr pix t = Except.ok u) :
    u.keypad = t.keypad := by
  simp only [CPU.drw_bit] at h
  obtain ⟨cur, hc, h2⟩ := bind_eq_ok h
  split at h2
  · exact (xor_pixel_keypad h2).trans rfl
  · exact xor_pixel_keypad h2

/-- One draw-loop row leaves the keypad unchanged. -/
theorem drw_row_keypad {start row : Nat} {t u : CPU}
    (h : CPU.drw_row start row t = Except.ok u) : u.keypad = t.keypad := by
  simp only [CPU.drw_row] at h
  obtain ⟨sr, hsr, h2⟩ := bind_eq_ok h
  exact CPU.foldlM_ok_preserve (fun r => r.keypad = t.keypad) _
    (fun a b c hP hok => (drw_bit_keypad hok).trans hP) _ t u rfl h2

/-- Source `opcode_drw` leaves the keypad unchanged. -/
theorem opcode_drw_keypad {s t : CPU}
    (h : s.opcode_drw = Except.ok t) : t.keypad = s.keypad := by
  simp only [CPU.opcode_drw] at h
  obtain ⟨u, hu, h2⟩ := bind_eq_ok h
  cases h2
  refine CPU.foldlM_ok_preserve (fun r => r.keypad = s.keypad) _
    (fun a b c hP hok => (drw_row_keypad hok).trans hP) _ _ u ?_ hu
  rfl

/-- Source `opcode_ret` changes neither keypad nor display. -/
theorem opcode_ret_frame {s t : CPU} (h : s.opcode_ret = Except.ok t) :
    t.keypad = s.keypad ∧ t.display = s.display := by
  simp only [CPU.opcode_ret] at h
  split at h
  · exact Except.noConfusion h
  · obtain ⟨v, hv, h2⟩ := bind_eq_ok h
    cases h2
    exact ⟨rfl, rfl⟩

/-- Source `opcode_call` changes neither keypad nor display. -/
theorem opcode_call_frame {s t : CPU} (h : s.opcode_call = Except.ok t) :
    t.keypad = s.keypad ∧ t.display = s.display := by
  simp only [CPU.opcode_call] at h
  obtain ⟨s1, h1, h2⟩ := bind_eq_ok h
  cases h2
  exact ⟨(writeStack_frame h1).1, (writeStack_frame h1).2⟩

/-- Source `opcode_skp` changes neither keypad nor display. -/
theorem opcode_skp_frame {s t : CPU} (h : s.opcode_skp = Except.ok t) :
    t.keypad = s.keypad ∧ t.display = s.display := by
  simp only [CPU.opcode_skp] at h
  obtain ⟨k, hk, h2⟩ := bind_eq_ok h
  cases h2
  exact ⟨rfl, rfl⟩

/-- Source `opcode_sknp` changes neither keypad nor display. -/
theorem opcode_sknp_frame {s t : CPU} (h : s.opcode_sknp = Except.ok t) :
    t.keypad = s.keypad ∧ t.display = s.display := by
  simp only [CPU.opcode_sknp] at h
  obtain ⟨k, hk, h2⟩ := bind_eq_ok h
  cases h2
  exact ⟨rfl, rfl⟩

/-- Source `opcode_bcd_vx` changes neither keypad nor display. -/
theorem opcode_bcd_frame {s t : CPU} (h : s.opcode_bcd_vx = Except.ok t) :
    t.keypad = s.keypad ∧ t.display = s.display := by
  simp only [CPU.opcode_bcd_vx] at h
  obtain ⟨s1, h1, h2⟩ := bind_eq_ok h
  obtain ⟨s2, h3, h4⟩ := bind_eq_ok h2
  obtain ⟨s3, h5, h6⟩ := bind_eq_ok h4
  cases h6
  have f1 := writeMem_frame h1
  have f2 := writeMem_frame h3
  have f3 := writeMem_frame h5
  exact ⟨(f3.1.trans f2.1).trans f1.1, (f3.2.trans f2.2).trans f1.2⟩

/-- Source `opcode_store_vx` changes neither keypad nor display. -/
theorem opcode_store_frame {s t : CPU} (h : s.opcode_store_vx = Except.ok t) :
    t.keypad = s.keypad ∧ t.display = s.display := by
  simp only [CPU.opcode_store_vx] at h
  obtain ⟨u, hu, h2⟩ := bind_eq_ok h
  cases h2
  refine CPU.foldlM_ok_preserve
    (fun r => r.keypad = s.keypad ∧ r.display = s.display) _ ?_ _ s u ⟨rfl, rfl⟩ hu
  intro a b c hP hw
  have f := writeMem_frame hw
  exact ⟨f.1.trans hP.1, f.2.trans hP.2⟩

/-- Source `opcode_read_vx` changes neither keypad nor display. -/
theorem opcode_read_frame {s t : CPU} (h : s.opcode_read_vx = Except.ok t) :
    t.keypad = s.keypad ∧ t.display = s.display := by
  simp only [CPU.opcode_read_vx] at h
  obtain ⟨u, hu, h2⟩ := bind_eq_ok h
  cases h2
  refine CPU.foldlM_ok_preserve
    (fun r => r.keypad = s.keypad ∧ r.display = s.display) _ ?_ _ s u ⟨rfl, rfl⟩ hu
  intro a b c hP hw
  simp only [CPU.readMem] at hw
  split at hw
  · rw [ok_bind] at hw
    cases hw
    exact hP
  · simp at hw

/-- Source `fetch_opcode` changes neither keypad nor display. -/
theorem fetch_frame {s t : CPU} (h : s.fetch_opcode = Except.ok t) :
    t.keypad = s.keypad ∧ t.display = s.display := by
  simp only [CPU.fetch_opcode] at h
  obtain ⟨b1, h1, h2⟩ := bind_eq_ok h
  obtain ⟨b2, h3, h4⟩ := bind_eq_ok h2
  cases h4
  exact ⟨rfl, rfl⟩

/-- Transport of the display invariant along display equality. -/
theorem displayInv_of_display_eq {s t : CPU} (h : t.display = s.display)
    (hinv : CPU.DisplayInv s) : CPU.DisplayInv t := by
  intro p hp
  rw [h]
  exact hinv p hp

/-- A triple update read back inside the written triplet. -/
theorem triple_upd_at (d : Nat → Nat) (b v j : Nat)
    (h : j = b ∨ j = b + 1 ∨ j = b + 2) :
    upd (upd (upd d (b + 0) v) (b + 1) v) (b + 2) v j = v := by
  rcases h with h | h | h <;> subst h <;> simp [upd]

/-- A triple update read back outside the written triplet. -/
theorem triple_upd_ne (d : Nat → Nat) (b v j : Nat)
    (h1 : j ≠ b + 0) (h2 : j ≠ b + 1) (h3 : j ≠ b + 2) :
    upd (upd (upd d (b + 0) v) (b + 1) v) (b + 2) v j = d j := by
  rw [upd_ne _ _ _ _ h3, upd_ne _ _ _ _ h2, upd_ne _ _ _ _ h1]

/-- Source `set_pixel` preserves the display invariant. -/
theorem set_pixel_display_inv {s t : CPU} {i st : Nat}
    (hinv : CPU.DisplayInv s) (h : s.set_pixel i st = Except.ok t) :
    CPU.DisplayInv t := by
  simp only [CPU.set_pixel] at h
  split at h
  case isTrue hst =>
    split at h
    case isTrue hb =>
      cases h
      intro p hp
      dsimp only
      by_cases hpi : p = i
      · subst hpi
        constructor
        · rw [triple_upd_at _ _ _ _ (Or.inl rfl),
            triple_upd_at _ _ _ _ (Or.inr (Or.inl rfl))]
        constructor
        · rw [triple_upd_at _ _ _ _ (Or.inr (Or.inl rfl)),
            triple_upd_at _ _ _ _ (Or.inr (Or.inr rfl))]
        · rw [triple_upd_at _ _ _ _ (Or.inl rfl)]
          rcases hst with h1 | h0
          · rw [if_pos h1]; right; rfl
          · rw [if_neg (by omega : ¬st = 1)]; left; rfl
      · have e1 : p * 3 ≠ i * 3 + 0 := by omega
        have e2 : p * 3 ≠ i * 3 + 1 := by omega
        have e3 : p * 3 ≠ i * 3 + 2 := by omega
        have e4 : p * 3 + 1 ≠ i * 3 + 0 := by omega
        have e5 : p * 3 + 1 ≠ i * 3 + 1 := by omega
        have e6 : p * 3 + 1 ≠ i * 3 + 2 := by omega
        have e7 : p * 3 + 2 ≠ i * 3 + 0 := by omega
        have e8 : p * 3 + 2 ≠ i * 3 + 1 := by omega
        have e9 : p * 3 + 2 ≠ i * 3 + 2 := by omega
        rw [triple_upd_ne _ _ _ _ e1 e2 e3, triple_upd_ne _ _ _ _ e4 e5 e6,
          triple_upd_ne _ _ _ _ e7 e8 e9]
        exact hinv p hp
    case isFalse hb => exact Except.noConfusion h
  case isFalse hst => exact Except.noConfusion h

/-- Source `xor_pixel` preserves the display invariant. -/
theorem xor_pixel_display_inv {s t : CPU} {i st : Nat}
    (hinv : CPU.DisplayInv s) (h : s.xor_pixel i st = Except.ok t) :
    CPU.DisplayInv t := by
  simp only [CPU.xor_pixel] at h
  obtain ⟨cur, hc, h2⟩ := bind_eq_ok h
  split at h2 <;> exact set_pixel_display_inv hinv h2

/-- One draw-loop bit preserves the display invariant. -/
theorem drw_bit_display_inv {start row sr pix : Nat} {t u : CPU}
    (hinv : CPU.DisplayInv t) (h : CPU.drw_bit start row sr pix t = Except.ok u) :
    CPU.DisplayInv u := by
  simp only [CPU.drw_bit] at h
  obtain ⟨cur, hc, h2⟩ := bind_eq_ok h
  split at h2
  · refine xor_pixel_display_inv ?_ h2
    exact hinv
  · exact xor_pixel_display_inv hinv h2

/-- One draw-loop row preserves the display invariant. -/
theorem drw_row_display_inv {start row : Nat} {t u : CPU}
    (hinv : CPU.DisplayInv t) (h : CPU.drw_row start row t = Except.ok u) :
    CPU.DisplayInv u := by
  simp only [CPU.drw_row] at h
  obtain ⟨sr, hsr, h2⟩ := bind_eq_ok h
  exact CPU.foldlM_ok_preserve CPU.DisplayInv _
    (fun a b c hP hok => drw_bit_display_inv hP hok) _ t u hinv h2

/-- Source `opcode_drw` preserves the display invariant. -/
theorem opcode_drw_display_inv {s t : CPU}
    (hinv : CPU.DisplayInv s) (h : s.opcode_drw = Except.ok t) :
    CPU.DisplayInv t := by
  simp only [CPU.opcode_drw] at h
  obtain ⟨u, hu, h2⟩ := bind_eq_ok h
  cases h2
  refine CPU.foldlM_ok_preserve CPU.DisplayInv _
    (fun a b c hP hok => drw_row_display_inv hP hok) _ _ u ?_ hu
  exact hinv

/-- Decode-execute frame: every successful dispatch leaves the keypad
unchanged and preserves the display invariant. -/
theorem decode_frame (rand : Nat) {s t : CPU}
    (h : CPU.decode_opcode rand s = Except.ok t) :
    t.keypad = s.keypad ∧ (CPU.DisplayInv s → CPU.DisplayInv t) := by
  unfold CPU.decode_opcode at h
  split at h <;> try split at h
  all_goals first
    | exact Except.noConfusion h
    | (simp only [CPU.opcode_cls] at h; cases h;
       exact ⟨rfl, fun _ p hp => ⟨rfl, rfl, Or.inl rfl⟩⟩)
    | exact ⟨(opcode_ret_frame h).1,
        displayInv_of_display_eq (opcode_ret_frame h).2⟩
    | exact ⟨(opcode_call_frame h).1,
        displayInv_of_display_eq (opcode_call_frame h).2⟩
    | exact ⟨(opcode_skp_frame h).1,
        displayInv_of_display_eq (opcode_skp_frame h).2⟩
    | exact ⟨(opcode_sknp_frame h).1,
        displayInv_of_display_eq (opcode_sknp_frame h).2⟩
    | exact ⟨(opcode_bcd_frame h).1,
        displayInv_of_display_eq (opcode_bcd_frame h).2⟩
    | exact ⟨(opcode_store_frame h).1,
        displayInv_of_display_eq (opcode_store_frame h).2⟩
    | exact ⟨(opcode_read_frame h).1,
        displayInv_of_display_eq (opcode_read_frame h).2⟩
    | exact ⟨opcode_drw_keypad h, fun hi => opcode_drw_display_inv hi h⟩
    | (simp only [CPU.opcode_jp, CPU.opcode_se_byte, CPU.opcode_sne_byte,
        CPU.opcode_se_vx, CPU.opcode_ld_byte, CPU.opcode_add_byte,
        CPU.opcode_ld_vy, CPU.opcode_or, CPU.opcode_and, CPU.opcode_xor,
        CPU.opcode_add, CPU.opcode_sub, CPU.opcode_shr, CPU.opcode_subn,
        CPU.opcode_shl, CPU.opcode_sne, CPU.opcode_ld, CPU.opcode_jp_v0,
        CPU.opcode_rnd, CPU.opcode_get_dt, CPU.opcode_waitkey,
        CPU.opcode_set_dt, CPU.opcode_set_st, CPU.opcode_add_i,
        CPU.opcode_set_sprite] at h; cases h;
       exact ⟨rfl, fun hi => hi⟩)

/-! ## Claim C9: a step never writes the keypad -/

/-- Claim C9: for every state and random byte, a successful
fetch-decode-execute-timers cycle leaves all keypad entries unchanged —
opcodes only read the keypad; it is written exclusively by
`update_keypad`. -/
theorem C9_step_preserves_keypad (rand : Nat) (s s' : CPU)
    (h : CPU.emulate_cycle rand s = Except.ok s') :
    s'.keypad = s.keypad := by
  simp only [CPU.emulate_cycle] at h
  obtain ⟨s1, h1, h2⟩ := bind_eq_ok h
  obtain ⟨s2, h3, h4⟩ := bind_eq_ok h2
  cases h4
  calc (CPU.update_timers s2).keypad
      = s2.keypad := rfl
    _ = s1.keypad := (decode_frame rand h3).1
    _ = s.keypad := (fetch_frame h1).1

/-- Witness for C9: one cycle on `c9state` (a CLS program). -/
theorem C9_witness : c9res.keypad = c9state.keypad :=
  C9_step_preserves_keypad 0 c9state c9res rfl

/-! ## Claim C7: the display framebuffer invariant -/

/-- Claim C7: the display invariant — every logical pixel's three encoding
bytes are identical and each is 0 or 255 — holds in the constructed state
and is preserved by every step, by `load_image`, by `update_keypad`, and
by every successful pixel write. -/
theorem C7_display_invariant_preserved :
    CPU.DisplayInv CPU.new ∧
    (∀ (rand : Nat) (s s' : CPU), CPU.DisplayInv s →
      CPU.emulate_cycle rand s = Except.ok s' → CPU.DisplayInv s') ∧
    (∀ (s : CPU) (bytes : List Nat), CPU.DisplayInv s →
      CPU.DisplayInv (s.load_image bytes)) ∧
    (∀ (s : CPU) (key : CPU.Keycode) (down : Bool), CPU.DisplayInv s →
      CPU.DisplayInv (s.update_keypad key down)) ∧
    (∀ (s s' : CPU) (i st : Nat), CPU.DisplayInv s →
      s.set_pixel i st = Except.ok s' → CPU.DisplayInv s') := by
  refine ⟨?_, ?_, ?_, ?_, ?_⟩
  · intro p hp
    exact ⟨rfl, rfl, Or.inl rfl⟩
  · intro rand s s' hinv h
    simp only [CPU.emulate_cycle] at h
    obtain ⟨s1, h1, h2⟩ := bind_eq_ok h
    obtain ⟨s2, h3, h4⟩ := bind_eq_ok h2
    cases h4
    have i1 : CPU.DisplayInv s1 :=
      displayInv_of_display_eq (fetch_frame h1).2 hinv
    have i2 : CPU.DisplayInv s2 := (decode_frame rand h3).2 i1
    exact displayInv_of_display_eq (rfl : (CPU.update_timers s2).display = s2.display) i2
  · intro s bytes hinv
    exact displayInv_of_display_eq rfl hinv
  · intro s key down hinv
    unfold CPU.update_keypad
    split
    · exact displayInv_of_display_eq rfl hinv
    · exact hinv
  · intro s s' i st hinv h
    exact set_pixel_display_inv hinv h

/-- Witness for C7: the invariant after one cycle on `c9state`, via the
step-preservation part applied to the constructed state's invariant. -/
theorem C7_witness : CPU.DisplayInv c7res :=
  C7_display_invariant_preserved.2.1 0 c9state c7res
    (fun p hp => ⟨rfl, rfl, Or.inl rfl⟩) rfl
